import Mathlib

/-!
Verification of the H1 OKR performance-tracker dashboard (`app.py`).

The program fetches issue-tracker tickets via one HTTP search call,
normalizes each raw record into a flat row, and computes a selected
assignee's share of completed tickets within substring-matched category
buckets.  We embed the computational core shallowly: the pandas DataFrame
becomes `List Ticket`, percentages (Python floats arising as ratios of
small integer counts, times 100) become `ℚ`, the HTTP layer becomes an
explicit `HttpResponse` value, and the time-boxed cache becomes explicit
state passing with a numeric clock.
-/

namespace OkrTracker

/-- One element of the `issues` array of the tracker's JSON response:
`key`, plus the `fields` object with `issuetype.name`,
`assignee.displayName` (nullable) and `status.name`
(`app.py` lines 36-44). -/
structure RawIssue where
  key : String
  issuetype : String
  assignee : Option String
  status : String
deriving Repr, DecidableEq

/-- The HTTP response of the single search call: a status code and the
`issues` array of the JSON body (`none` when the key is absent, matching
`response.json().get('issues', [])`, `app.py` line 36). -/
structure HttpResponse where
  statusCode : Nat
  body : Option (List RawIssue)
deriving Repr, DecidableEq

/-- The completion-status set of `app.py` line 43. -/
def closedStatuses : List String := ["closed", "done", "resolved"]

/-- Python's `str.lower()` as used on the ASCII status and type strings of
this program: per-character lowercase mapping. -/
def strToLower (s : String) : String :=
  String.mk (s.toList.map Char.toLower)

/-- A normalized row of the snapshot table (`app.py` lines 38-44). -/
structure Ticket where
  key : String
  type : String
  assignee : String
  status : String
  is_closed : Bool
deriving Repr, DecidableEq

/-- Normalization of one raw record (`app.py` lines 38-44):
type name, assignee display name with `"Unassigned"` substituted for a
null assignee, status name, and the derived `is_closed` flag
(`f['status']['name'].lower() in ["closed", "done", "resolved"]`). -/
def normalizeIssue (i : RawIssue) : Ticket :=
  { key := i.key
    type := i.issuetype
    assignee := match i.assignee with
      | some name => name
      | none => "Unassigned"
    status := i.status
    is_closed := closedStatuses.contains (strToLower i.status) }

/-- Modelled from the `requests` library that `app.py` line 33 calls into:
`Response.raise_for_status()` raises `HTTPError` exactly for client-error
and server-error responses, i.e. when `400 <= status_code < 600`, and
returns normally for every other status code. -/
def raise_for_status (r : HttpResponse) : Except Nat Unit :=
  if 400 ≤ r.statusCode ∧ r.statusCode < 600 then Except.error r.statusCode
  else Except.ok ()

/-- The fetch-and-normalize stage `load_h1_data` (`app.py` lines 25-45)
applied to the response of its single network call: check the status via
`raise_for_status`, then map each element of the `issues` array (default
`[]`) through normalization.  An error is propagated as `Except.error`
carrying the status code; no data accompanies it. -/
def load_h1_data (resp : HttpResponse) : Except Nat (List Ticket) := do
  let _ ← raise_for_status resp
  pure ((resp.body.getD []).map normalizeIssue)

/-- Decidable infix test on lists: `pat` occurs contiguously inside `l`.
Used to embed the pandas substring test `Series.str.contains`
(for the literal category patterns of `app.py`, which contain no regex
metacharacters, the regex search is plain substring containment). -/
def listIsInfixOf (pat : List Char) : List Char → Bool
  | [] => pat.isEmpty
  | c :: t => pat.isPrefixOf (c :: t) || listIsInfixOf pat t

/-- Case-insensitive substring test, embedding
`df['type'].str.contains(cat, case=False)` (`app.py` lines 59 and 103):
`case=False` lowercases both sides. -/
def strContainsCI (s pat : String) : Bool :=
  listIsInfixOf (strToLower pat).toList (strToLower s).toList

/-- The rows of `df` kept by `df[df['type'].str.contains(cat, case=False)]`
(`app.py` line 103). -/
def catPool (df : List Ticket) (cat : String) : List Ticket :=
  df.filter (fun t => strContainsCI t.type cat)

/-- `display_df = df[df['type'].str.contains("Display", case=False)]`
(`app.py` line 59). -/
def display_df (df : List Ticket) : List Ticket :=
  df.filter (fun t => strContainsCI t.type "Display")

/-- `total_display_pool = len(display_df)` (`app.py` line 62). -/
def total_display_pool (df : List Ticket) : Nat :=
  (display_df df).length

/-- `user_closed_display = len(display_df[(display_df['assignee'] ==
selected_user) & (display_df['is_closed'])])` (`app.py` line 63). -/
def user_closed_display (df : List Ticket) (selected_user : String) : Nat :=
  ((display_df df).filter
    (fun t => t.assignee == selected_user && t.is_closed)).length

/-- `share_percentage = (user_closed_display / total_display_pool * 100) if
total_display_pool > 0 else 0` (`app.py` line 66), with the float ratio
embedded as a rational. -/
def share_percentage (df : List Ticket) (selected_user : String) : ℚ :=
  if total_display_pool df > 0 then
    (user_closed_display df selected_user : ℚ) / (total_display_pool df : ℚ) * 100
  else 0

/-- The fixed category list of the breakdown loop (`app.py` line 102). -/
def categories : List String := ["Display", "Video", "Pixel", "Bespoke"]

/-- One row of the breakdown table (`app.py` line 107); the share is kept
as a rational rather than its one-decimal string rendering. -/
structure SummaryRow where
  category : String
  teamTotal : Nat
  userCompleted : Nat
  sharePerc : ℚ
deriving Repr, DecidableEq

/-- One iteration of the breakdown loop (`app.py` lines 103-107):
`cat_pool`, `total_cat`, `user_cat` and `perc` for one category. -/
def summaryRow (df : List Ticket) (selected_user : String) (cat : String) :
    SummaryRow :=
  let cat_pool := catPool df cat
  let total_cat := cat_pool.length
  let user_cat := (cat_pool.filter
    (fun t => t.assignee == selected_user && t.is_closed)).length
  let perc : ℚ :=
    if total_cat > 0 then (user_cat : ℚ) / (total_cat : ℚ) * 100 else 0
  { category := cat, teamTotal := total_cat, userCompleted := user_cat,
    sharePerc := perc }

/-- The full breakdown table (`app.py` lines 100-107). -/
def summary (df : List Ticket) (selected_user : String) : List SummaryRow :=
  categories.map (summaryRow df selected_user)

/-- `team_members = sorted(df['assignee'].unique())` (`app.py` line 54):
distinct assignee values in ascending lexicographic order. -/
def team_members (df : List Ticket) : List String :=
  ((df.map Ticket.assignee).dedup).mergeSort

/-- The headline metrics shown prominently (`app.py` lines 62-74). -/
structure Headline where
  share : ℚ
  totalPool : Nat
  userClosed : Nat
deriving Repr, DecidableEq

/-- What the page renders after the fetch: either the empty-state warning
(`app.py` lines 50-51) or the dashboard with the member selector, headline
metrics and breakdown table (`app.py` lines 52-109). -/
inductive AppView where
  | noData : AppView
  | dashboard (members : List String) (selected : String)
      (headline : Headline) (rows : List SummaryRow) : AppView
deriving Repr, DecidableEq

/-- The page body over a loaded snapshot (`app.py` lines 50-109).  The
selectbox choice is abstracted as a function from the offered member list
to the selected member. -/
def runApp (df : List Ticket) (choose : List String → String) : AppView :=
  if df.isEmpty then AppView.noData
  else
    let members := team_members df
    let selected_user := choose members
    AppView.dashboard members selected_user
      { share := share_percentage df selected_user
        totalPool := total_display_pool df
        userClosed := user_closed_display df selected_user }
      (summary df selected_user)

/-- The whole per-rerun flow: fetch (`df = load_h1_data()`, `app.py`
line 48) then render. -/
def runPipeline (resp : HttpResponse) (choose : List String → String) :
    Except Nat AppView :=
  (load_h1_data resp).map (fun df => runApp df choose)

/-- Modelled from the documented semantics of the caching decorator on
`load_h1_data` (`@st.cache_data(ttl=3600)`, `app.py` line 24): an entry is
valid for `ttl` seconds after it was stored; within that window the cached
value is returned without re-running the function, after it the function
runs again and its fresh result replaces the entry.  The cache state is an
optional `(storedAt, snapshot)` pair; each call returns the result, the
new state, and how many network calls it made. -/
def cacheTTL : Nat := 3600

/-- A cache miss: run `load_h1_data` once (exactly one network call); a
successful snapshot is stored with the current time, an error is
propagated and nothing is stored. -/
def freshLoad (now : Nat) (resp : HttpResponse) :
    Except Nat (List Ticket) × Option (Nat × List Ticket) × Nat :=
  match load_h1_data resp with
  | Except.ok v => (Except.ok v, some (now, v), 1)
  | Except.error e => (Except.error e, none, 1)

/-- One invocation of the cached `load_h1_data` at time `now`: a stored
entry younger than `cacheTTL` is returned with no network call, otherwise
the loader runs afresh. -/
def cachedLoad (state : Option (Nat × List Ticket)) (now : Nat)
    (resp : HttpResponse) :
    Except Nat (List Ticket) × Option (Nat × List Ticket) × Nat :=
  match state with
  | some (t0, v) =>
    if now < t0 + cacheTTL then (Except.ok v, some (t0, v), 0)
    else freshLoad now resp
  | none => freshLoad now resp

/-! ### Sample data

The example scenario of the spec (section 8): three raw records run
through normalization. -/

/-- First raw record of the spec's example scenario. -/
def aliceRaw : RawIssue :=
  { key := "T-1", issuetype := "ANZ - Display", assignee := some "Alice",
    status := "Done" }

/-- Second raw record of the spec's example scenario. -/
def bobRaw : RawIssue :=
  { key := "T-2", issuetype := "UK - Display", assignee := some "Bob",
    status := "Open" }

/-- Third raw record of the spec's example scenario. -/
def videoRaw : RawIssue :=
  { key := "T-3", issuetype := "Video", assignee := some "Alice",
    status := "Closed" }

/-- The spec's example snapshot: `ANZ - Display`/Alice/Done,
`UK - Display`/Bob/Open, `Video`/Alice/Closed. -/
def sampleSnap : List Ticket :=
  [normalizeIssue aliceRaw, normalizeIssue bobRaw, normalizeIssue videoRaw]

/-- A raw record with a null assignee. -/
def unassignedRaw : RawIssue :=
  { key := "T-9", issuetype := "Display", assignee := none, status := "Open" }

/-! ### Helper lemmas -/

/-- The executable infix test coincides with `List.IsInfix`. -/
theorem listIsInfixOf_iff (pat l : List Char) :
    listIsInfixOf pat l = true ↔ pat <:+: l := by
  induction l with
  | nil => simp [listIsInfixOf, List.isEmpty_iff, List.infix_nil]
  | cons c t ih =>
    simp [listIsInfixOf, List.isPrefixOf_iff_prefix, ih, List.infix_cons_iff]

/-- `strContainsCI s pat` holds exactly when the lowercased pattern occurs
as a contiguous substring of the lowercased string. -/
theorem strContainsCI_iff (s pat : String) :
    strContainsCI s pat = true ↔
      (strToLower pat).toList <:+: (strToLower s).toList := by
  simp [strContainsCI, listIsInfixOf_iff]

/-! ### Claims -/

/-- C1: a ticket is counted in category C's team total exactly when its
`type` field contains C as a case-insensitive substring — both in the
breakdown loop (`summaryRow`/`catPool`) and in the headline pool
(`display_df`) — and category membership is not a partition: a single
ticket may match several categories (witnessed by a `"Display & Video"`
ticket) or none (witnessed by an `"Audit"` ticket). -/
theorem C1_category_substring_membership :
    (∀ (df : List Ticket) (selected_user cat : String),
        (summaryRow df selected_user cat).teamTotal
          = df.countP (fun t => strContainsCI t.type cat)) ∧
    (∀ (df : List Ticket) (cat : String) (t : Ticket),
        t ∈ catPool df cat ↔ t ∈ df ∧ strContainsCI t.type cat = true) ∧
    (∀ (df : List Ticket) (t : Ticket),
        t ∈ display_df df ↔ t ∈ df ∧ strContainsCI t.type "Display" = true) ∧
    (∀ (s pat : String), strContainsCI s pat = true ↔
        (strToLower pat).toList <:+: (strToLower s).toList) ∧
    (∃ t : Ticket, strContainsCI t.type "Display" = true
        ∧ strContainsCI t.type "Video" = true) ∧
    (∃ t : Ticket, strContainsCI t.type "Display" = false
        ∧ strContainsCI t.type "Video" = false) := by
  refine ⟨?_, ?_, ?_, strContainsCI_iff,
    ⟨{ key := "T-0", type := "Display & Video", assignee := "Alice",
       status := "Open", is_closed := false }, by decide, by decide⟩,
    ⟨{ key := "T-0", type := "Audit", assignee := "Alice",
       status := "Open", is_closed := false }, by decide, by decide⟩⟩
  · intro df u cat
    simp [summaryRow, catPool, List.countP_eq_length_filter]
  · intro df cat t
    simp [catPool, List.mem_filter]
  · intro df t
    simp [display_df, List.mem_filter]

/-- C2: the normalized `is_closed` flag is true if and only if the
lowercased status name is one of `closed`, `done`, `resolved`; every
other status value yields false. -/
theorem C2_is_closed_iff_status :
    ∀ i : RawIssue,
      (normalizeIssue i).is_closed = true ↔
        (strToLower i.status = "closed" ∨ strToLower i.status = "done"
          ∨ strToLower i.status = "resolved") := by
  intro i
  simp [normalizeIssue, closedStatuses]

/-- C3: a category with team total 0 gets share percentage exactly 0 —
total division by zero never occurs because the guarded branch returns 0 —
both for each breakdown-table row and for the headline percentage. -/
theorem C3_zero_total_zero_share (df : List Ticket)
    (selected_user cat : String) :
    ((summaryRow df selected_user cat).teamTotal = 0 →
      (summaryRow df selected_user cat).sharePerc = 0) ∧
    (total_display_pool df = 0 → share_percentage df selected_user = 0) := by
  constructor
  · intro h
    simp only [summaryRow] at h ⊢
    simp [h]
  · intro h
    simp [share_percentage, h]

/-- C3 witness: on the sample snapshot the `Pixel` category has team total
0 and share 0; on the empty snapshot the headline pool is 0 and the
headline share is 0. -/
theorem C3_zero_total_zero_share_witness :
    (summaryRow sampleSnap "Alice" "Pixel").teamTotal = 0 ∧
    (summaryRow sampleSnap "Alice" "Pixel").sharePerc = 0 ∧
    total_display_pool ([] : List Ticket) = 0 ∧
    share_percentage ([] : List Ticket) "Alice" = 0 :=
  ⟨by decide, (C3_zero_total_zero_share sampleSnap "Alice" "Pixel").1 (by decide),
   rfl, (C3_zero_total_zero_share [] "Alice" "Pixel").2 rfl⟩

/-- C4: in every breakdown row with a positive team total, the
user-completed count is at most the team total (it counts a filtered
subset of the category pool), hence the share percentage lies between 0
and 100. -/
theorem C4_share_bounds (df : List Ticket) (selected_user cat : String)
    (h : (summaryRow df selected_user cat).teamTotal > 0) :
    (summaryRow df selected_user cat).userCompleted
        ≤ (summaryRow df selected_user cat).teamTotal ∧
    0 ≤ (summaryRow df selected_user cat).sharePerc ∧
    (summaryRow df selected_user cat).sharePerc ≤ 100 := by
  have hle : (summaryRow df selected_user cat).userCompleted
      ≤ (summaryRow df selected_user cat).teamTotal := by
    simpa [summaryRow] using
      List.length_filter_le (fun t => t.assignee == selected_user && t.is_closed)
        (catPool df cat)
  refine ⟨hle, ?_, ?_⟩
  · simp only [summaryRow] at h ⊢
    rw [if_pos h]
    positivity
  · simp only [summaryRow] at h hle ⊢
    rw [if_pos h]
    have htpos : (0 : ℚ) < ((catPool df cat).length : ℚ) := by exact_mod_cast h
    have hdiv : ((List.filter (fun t => t.assignee == selected_user && t.is_closed)
        (catPool df cat)).length : ℚ) / ((catPool df cat).length : ℚ) ≤ 1 := by
      rw [div_le_one htpos]
      exact_mod_cast hle
    calc ((List.filter (fun t => t.assignee == selected_user && t.is_closed)
            (catPool df cat)).length : ℚ) / ((catPool df cat).length : ℚ) * 100
        ≤ 1 * 100 := mul_le_mul_of_nonneg_right hdiv (by norm_num)
      _ = 100 := by norm_num

/-- C4 witness: on the sample snapshot the `Display` row has positive team
total and the bounds hold there. -/
theorem C4_share_bounds_witness :
    0 < (summaryRow sampleSnap "Alice" "Display").teamTotal ∧
    ((summaryRow sampleSnap "Alice" "Display").userCompleted
        ≤ (summaryRow sampleSnap "Alice" "Display").teamTotal ∧
      0 ≤ (summaryRow sampleSnap "Alice" "Display").sharePerc ∧
      (summaryRow sampleSnap "Alice" "Display").sharePerc ≤ 100) :=
  ⟨by decide, C4_share_bounds sampleSnap "Alice" "Display" (by decide)⟩

/-- C5: the headline metrics computed separately from `display_df`
(`total_display_pool`, `user_closed_display`, `share_percentage`) equal
the breakdown row of the first category of the fixed category list, which
is `"Display"`, for every snapshot and selected assignee. -/
theorem C5_headline_equals_display_row (df : List Ticket)
    (selected_user : String) :
    categories.head? = some "Display" ∧
    summaryRow df selected_user "Display" =
      { category := "Display"
        teamTotal := total_display_pool df
        userCompleted := user_closed_display df selected_user
        sharePerc := share_percentage df selected_user } :=
  ⟨rfl, rfl⟩

/-- C6: when the fetch yields an empty snapshot, the page short-circuits
to the empty-state view; `AppView.noData` carries no member list, no
headline metric and no summary row, so none of the downstream share
calculations is performed. -/
theorem C6_empty_snapshot_no_data (resp : HttpResponse)
    (choose : List String → String)
    (h : load_h1_data resp = Except.ok []) :
    runPipeline resp choose = Except.ok AppView.noData := by
  simp [runPipeline, h, runApp, Except.map]

/-- C6 witness: a successful response whose `issues` array is empty
yields the empty-state view. -/
theorem C6_empty_snapshot_no_data_witness :
    load_h1_data { statusCode := 200, body := some [] } = Except.ok [] ∧
    runPipeline { statusCode := 200, body := some [] } (fun _ => "Alice")
      = Except.ok AppView.noData :=
  ⟨rfl, C6_empty_snapshot_no_data { statusCode := 200, body := some [] }
    (fun _ => "Alice") rfl⟩

/-- C7: a raw record with an absent assignee is normalized to the sentinel
`"Unassigned"` (and a present display name passes through unchanged);
normalization is total, so no error is propagated, and the normalized
row's assignee — `"Unassigned"` included — appears in the selectable
member list whenever the row is in the snapshot, aggregating like any
other assignee value. -/
theorem C7_missing_assignee_sentinel (i : RawIssue) :
    (i.assignee = none → (normalizeIssue i).assignee = "Unassigned") ∧
    (∀ name, i.assignee = some name → (normalizeIssue i).assignee = name) ∧
    (∀ (df : List Ticket) (t : Ticket), t ∈ df →
      t.assignee ∈ team_members df) := by
  refine ⟨?_, ?_, ?_⟩
  · intro h
    simp [normalizeIssue, h]
  · intro name h
    simp [normalizeIssue, h]
  · intro df t ht
    simp only [team_members, List.mem_mergeSort, List.mem_dedup]
    exact List.mem_map_of_mem Ticket.assignee ht

/-- C7 witness: the concrete null-assignee record normalizes to
`"Unassigned"`, and a ticket of the sample snapshot has its assignee in
the member list. -/
theorem C7_missing_assignee_sentinel_witness :
    unassignedRaw.assignee = none ∧
    (normalizeIssue unassignedRaw).assignee = "Unassigned" ∧
    (normalizeIssue aliceRaw) ∈ sampleSnap ∧
    (normalizeIssue aliceRaw).assignee ∈ team_members sampleSnap :=
  ⟨rfl, (C7_missing_assignee_sentinel unassignedRaw).1 rfl, by decide,
   (C7_missing_assignee_sentinel unassignedRaw).2.2 sampleSnap _ (by decide)⟩

/-- C8 counterexample: a 304 response has a non-2xx status, yet the fetch
raises nothing and returns a (empty) snapshot, because the underlying
HTTP client only raises for 4xx/5xx statuses.  This refutes the claim
that every non-2xx status makes the fetch raise. -/
theorem C8_counterexample_status_304 :
    ¬(200 ≤ (304 : Nat) ∧ (304 : Nat) < 300) ∧
    load_h1_data { statusCode := 304, body := some [] } = Except.ok [] :=
  ⟨by decide, rfl⟩

/-- C8 (amended): if the response status is a 4xx/5xx error status the
fetch raises and produces no data; any other status — all 2xx included —
raises no error and yields the normalized snapshot; and every actual load
invocation issues exactly one network call (no retry), whatever the
outcome. -/
theorem C8_fetch_error_propagation (resp : HttpResponse) :
    (400 ≤ resp.statusCode ∧ resp.statusCode < 600 →
      load_h1_data resp = Except.error resp.statusCode) ∧
    (resp.statusCode < 400 ∨ 600 ≤ resp.statusCode →
      load_h1_data resp = Except.ok ((resp.body.getD []).map normalizeIssue)) ∧
    (∀ now : Nat, (cachedLoad none now resp).2.2 = 1) := by
  refine ⟨?_, ?_, ?_⟩
  · intro h
    simp [load_h1_data, raise_for_status, h]
  · intro h
    have hn : ¬(400 ≤ resp.statusCode ∧ resp.statusCode < 600) := by omega
    simp [load_h1_data, raise_for_status, hn]
  · intro now
    simp only [cachedLoad, freshLoad]
    cases load_h1_data resp <;> simp

/-- C8 witness: a 404 response errors with no data, a 200 response yields
the normalized snapshot with no error, and a cache-miss invocation makes
exactly one network call. -/
theorem C8_fetch_error_propagation_witness :
    (400 ≤ (404 : Nat) ∧ (404 : Nat) < 600) ∧
    load_h1_data { statusCode := 404, body := none } = Except.error 404 ∧
    ((200 : Nat) < 400 ∧
      load_h1_data { statusCode := 200, body := some [unassignedRaw] }
        = Except.ok [normalizeIssue unassignedRaw]) ∧
    (cachedLoad none 0 { statusCode := 404, body := none }).2.2 = 1 :=
  ⟨by decide,
   (C8_fetch_error_propagation { statusCode := 404, body := none }).1 (by decide),
   ⟨by decide,
    (C8_fetch_error_propagation
      { statusCode := 200, body := some [unassignedRaw] }).2.1
      (Or.inl (by decide))⟩,
   (C8_fetch_error_propagation { statusCode := 404, body := none }).2.2 0⟩

/-- C9: after a successful fetch fills the cache at time `t0`, any
invocation before `t0 + 3600` returns the previously computed snapshot
with zero further network calls (whatever response the network would now
give), and the first invocation at or after `t0 + 3600` performs one
fresh network call and replaces the cached value. -/
theorem C9_cache_window (t0 t1 t2 : Nat) (resp resp2 : HttpResponse)
    (snap snap2 : List Ticket)
    (h : load_h1_data resp = Except.ok snap) :
    cachedLoad none t0 resp = (Except.ok snap, some (t0, snap), 1) ∧
    (t1 < t0 + cacheTTL →
      cachedLoad (some (t0, snap)) t1 resp2
        = (Except.ok snap, some (t0, snap), 0)) ∧
    (t0 + cacheTTL ≤ t2 → load_h1_data resp2 = Except.ok snap2 →
      cachedLoad (some (t0, snap)) t2 resp2
        = (Except.ok snap2, some (t2, snap2), 1)) := by
  refine ⟨?_, ?_, ?_⟩
  · simp [cachedLoad, freshLoad, h]
  · intro hlt
    simp [cachedLoad, hlt]
  · intro hge h2
    have hn : ¬ t2 < t0 + cacheTTL := by omega
    simp [cachedLoad, freshLoad, hn, h2]

/-- C9 witness: a fetch at time 0 fills the cache with one call; a call
at time 10 (inside the hour) returns the cached snapshot with zero calls
even against a network that would now answer 500; a call at time 3600
(window expired) makes one fresh call and restamps the cache. -/
theorem C9_cache_window_witness :
    load_h1_data { statusCode := 200, body := some [] } = Except.ok [] ∧
    cachedLoad none 0 { statusCode := 200, body := some [] }
      = (Except.ok [], some (0, []), 1) ∧
    ((10 : Nat) < 0 + cacheTTL ∧
      cachedLoad (some (0, [])) 10 { statusCode := 500, body := none }
        = (Except.ok [], some (0, []), 0)) ∧
    (0 + cacheTTL ≤ (3600 : Nat) ∧
      cachedLoad (some (0, [])) 3600 { statusCode := 200, body := some [] }
        = (Except.ok [], some (3600, []), 1)) :=
  ⟨rfl,
   (C9_cache_window 0 10 3600 { statusCode := 200, body := some [] }
     { statusCode := 500, body := none } [] [] rfl).1,
   ⟨by decide,
    (C9_cache_window 0 10 3600 { statusCode := 200, body := some [] }
      { statusCode := 500, body := none } [] [] rfl).2.1 (by decide)⟩,
   ⟨by decide,
    (C9_cache_window 0 10 3600 { statusCode := 200, body := some [] }
      { statusCode := 200, body := some [] } [] [] rfl).2.2 (by decide) rfl⟩⟩

/-- C10: the member-selection list offered by the dashboard is exactly the
distinct assignee values of the snapshot, without duplicates, in ascending
lexicographic order; and on every non-empty snapshot the rendered view is
the dashboard populated with that list. -/
theorem C10_team_members_sorted_distinct (df : List Ticket) :
    (team_members df).Sorted (· ≤ ·) ∧
    (team_members df).Nodup ∧
    (∀ x, x ∈ team_members df ↔ x ∈ df.map Ticket.assignee) ∧
    (∀ choose : List String → String, df ≠ [] →
      runApp df choose = AppView.dashboard (team_members df)
        (choose (team_members df))
        { share := share_percentage df (choose (team_members df))
          totalPool := total_display_pool df
          userClosed := user_closed_display df (choose (team_members df)) }
        (summary df (choose (team_members df)))) := by
  refine ⟨List.sorted_mergeSort' _, ?_, ?_, ?_⟩
  · unfold team_members
    exact (List.mergeSort_perm _ _).nodup_iff.mpr (List.nodup_dedup _)
  · intro x
    simp [team_members, List.mem_mergeSort, List.mem_dedup]
  · intro choose h
    simp [runApp, h]

/-- C10 witness: the sample snapshot is non-empty and renders as the
dashboard populated with its member list. -/
theorem C10_team_members_sorted_distinct_witness :
    sampleSnap ≠ [] ∧
    runApp sampleSnap (fun ms => ms.headD "") =
      AppView.dashboard (team_members sampleSnap)
        ((team_members sampleSnap).headD "")
        { share := share_percentage sampleSnap ((team_members sampleSnap).headD "")
          totalPool := total_display_pool sampleSnap
          userClosed := user_closed_display sampleSnap
            ((team_members sampleSnap).headD "") }
        (summary sampleSnap ((team_members sampleSnap).headD "")) :=
  ⟨by decide,
   (C10_team_members_sorted_distinct sampleSnap).2.2.2
     (fun ms => ms.headD "") (by decide)⟩

end OkrTracker
